import Mathlib

/-!
Verification of the marketplace backend (FastAPI/SQLAlchemy) against its
natural-language specification.  The Python source under
`backend/app` is shallowly embedded: ORM rows become Lean structures, the
SQLAlchemy query pipelines become list transformations, the in-memory cache
becomes an association list, and each route handler becomes a pure function
from its parameters and the store state to a response (plus the new state).
Machine floats (`price`) are modelled as `ℚ`; only order comparisons are ever
performed on them.  Timestamps are modelled as `ℕ`.
-/

namespace Marketplace

/-! ## String helpers

SQL `ilike '%pat%'` (used via `Product.title.ilike(f"%{search}%")` in
`query_optimizer.py`) is a case-insensitive substring test, and SQL text
ordering is binary/lexicographic.  These are implemented structurally on
character lists so that concrete instances reduce inside the kernel. -/

/-- Case-insensitive substring test: does `needle` occur inside `hay`? -/
def listIsInfix (needle hay : List Char) : Bool :=
  hay.tails.any (fun t => needle.isPrefixOf t)

/-- Model of SQLAlchemy `column.ilike ("%" ++ pat ++ "%")`: case-insensitive
substring match of `pat` against `text`. -/
def ilikeContains (text pat : String) : Bool :=
  listIsInfix (pat.data.map Char.toLower) (text.data.map Char.toLower)

/-- Lexicographic comparison of character lists by code point (binary text
collation, as used by the SQL backend for ORDER BY on text columns). -/
def lexLe : List Char → List Char → Bool
  | [], _ => true
  | _ :: _, [] => false
  | a :: as, b :: bs =>
    if a.toNat < b.toNat then true
    else if b.toNat < a.toNat then false
    else lexLe as bs

/-- Python truthiness of an `Optional[str]` value (`if category_id:` /
`if search:` in the source): `None` and the empty string are falsy. -/
def truthyStr : Option String → Bool
  | none => false
  | some s => !(s == "")

/-! ## Data model (`app/models/product.py`, `app/models/user.py`,
`app/models/category.py`) -/

/-- Row of the `products` table (`app/models/product.py`).  `price` is a
`Float` column modelled as `ℚ`; `description`, `image_url` and the JSON
`images` column are nullable. -/
structure Product where
  id : String
  title : String
  description : Option String
  price : ℚ
  seller_id : String
  category_id : String
  status : String
  image_url : Option String
  images : Option (List String)
  created_at : Nat
  updated_at : Nat
deriving DecidableEq

/-- Row of the `users` table (`app/models/user.py`).  `username` and `email`
carry UNIQUE constraints (exact, case-sensitive binary collation). -/
structure UserRec where
  id : String
  username : String
  email : String
  password_hash : String
  created_at : Nat
  updated_at : Nat
deriving DecidableEq

/-- Row of the `categories` table (`app/models/category.py`); only the fields
the verified handlers consult are carried. -/
structure CategoryRec where
  id : String
  name : String
deriving DecidableEq

/-! ## Response schemas (`app/schemas/product.py`, `app/schemas/user.py`) -/

/-- `ProductResponse`: all scalar columns of `Product` except the JSON
`images` column (the schema declares title, description, price, image_url,
status, id, seller_id, category_id and the two timestamps). -/
structure ProductResponse where
  id : String
  title : String
  description : Option String
  price : ℚ
  image_url : Option String
  status : String
  seller_id : String
  category_id : String
  created_at : Nat
  updated_at : Nat
deriving DecidableEq

/-- Serialization `ProductResponse.model_validate(product)`. -/
def Product.toResponse (p : Product) : ProductResponse :=
  { id := p.id, title := p.title, description := p.description, price := p.price
    image_url := p.image_url, status := p.status, seller_id := p.seller_id
    category_id := p.category_id, created_at := p.created_at, updated_at := p.updated_at }

/-- `ProductListResponse` (paginated listing payload). -/
structure ProductListResponse where
  products : List ProductResponse
  total : Nat
  page : Nat
  per_page : Nat
  total_pages : Nat
deriving DecidableEq

/-- `UserResponse`: id, username, email and timestamps — the schema declares
no password-related field, so serializing a `User` row through it drops the
hash. -/
structure UserResponse where
  id : String
  username : String
  email : String
  created_at : Nat
  updated_at : Nat
deriving DecidableEq

/-- Serialization of a user row through `UserResponse` (`from_attributes`). -/
def UserRec.toResponse (u : UserRec) : UserResponse :=
  { id := u.id, username := u.username, email := u.email
    created_at := u.created_at, updated_at := u.updated_at }

/-- Body of `POST /auth/register` (`UserCreate`). -/
structure UserCreate where
  username : String
  email : String
  password : String

/-- Body of `POST /products/` (`ProductCreate`). -/
structure ProductCreate where
  title : String
  description : Option String
  price : ℚ
  image_url : Option String
  status : String
  category_id : String

/-- Body of `PUT /products/{id}` (`ProductUpdate`); every field optional.
`none` models an omitted field (`model_dump(exclude_unset=True)` skips it). -/
structure ProductUpdate where
  title : Option String := none
  description : Option String := none
  price : Option ℚ := none
  image_url : Option String := none
  status : Option String := none
  category_id : Option String := none

/-- Outcome of a route handler: a value, or a raised `HTTPException`
(status code and `detail` string). -/
inductive HandlerResult (α : Type) where
  | ok (val : α)
  | httpError (code : Nat) (detail : String)
deriving DecidableEq

/-! ## Query/Filter/Pagination Engine
(`app/utils/query_optimizer.py`, `OptimizedQueries.get_products_with_pagination`) -/

/-- Conjunction of the filters built in `get_products_with_pagination`
(lines 77-94): always `Product.status == status`; `category_id` and `search`
are added under Python truthiness, the price bounds under `is not None`.
The free-text filter is `Product.title.ilike ("%" ++ search ++ "%")` —
the title column only. -/
def productFilters (category_id : Option String) (min_price max_price : Option ℚ)
    (search : Option String) (statusArg : String) (p : Product) : Bool :=
  (p.status == statusArg)
  && (if truthyStr category_id then p.category_id == category_id.getD "" else true)
  && (match min_price with | some m => decide (m ≤ p.price) | none => true)
  && (match max_price with | some m => decide (p.price ≤ m) | none => true)
  && (if truthyStr search then ilikeContains p.title (search.getD "") else true)

/-- Sort key selection, `getattr(Product, sort_by, Product.created_at)`:
recognised scalar columns sort by their own value, anything else falls back
to `created_at`.  The nullable text columns and the relationship attributes
are not modelled as sort keys (no claim concerns them). -/
def sortFieldLe (sort_by : String) (a b : Product) : Bool :=
  match sort_by with
  | "price" => decide (a.price ≤ b.price)
  | "title" => lexLe a.title.data b.title.data
  | "id" => lexLe a.id.data b.id.data
  | "seller_id" => lexLe a.seller_id.data b.seller_id.data
  | "category_id" => lexLe a.category_id.data b.category_id.data
  | "status" => lexLe a.status.data b.status.data
  | "updated_at" => decide (a.updated_at ≤ b.updated_at)
  | _ => decide (a.created_at ≤ b.created_at)

/-- Insertion step of the structural sort used to model SQL ORDER BY. -/
def insertSorted (le : Product → Product → Bool) (x : Product) : List Product → List Product
  | [] => [x]
  | y :: ys => if le x y then x :: y :: ys else y :: insertSorted le x ys

/-- Structural insertion sort by a boolean comparison. -/
def sortByLe (le : Product → Product → Bool) : List Product → List Product
  | [] => []
  | x :: xs => insertSorted le x (sortByLe le xs)

/-- ORDER BY `sort_column` ASC/DESC (lines 99-104 of the optimizer):
`desc` flips the comparison.  Relative order of equal keys is not specified
by SQL; this model realises one admissible order. -/
def orderBy (sort_by sort_order : String) (l : List Product) : List Product :=
  if sort_order == "desc" then sortByLe (fun a b => sortFieldLe sort_by b a) l
  else sortByLe (fun a b => sortFieldLe sort_by a b) l

/-- `OptimizedQueries.get_products_with_pagination`: filter, count before
pagination, sort, then `offset skip` / `limit limit`.  Returns
`(products, total_count)`. -/
def get_products_with_pagination (skip limit : Nat) (category_id : Option String)
    (min_price max_price : Option ℚ) (search : Option String) (statusArg : String)
    (sort_by sort_order : String) (db : List Product) : List Product × Nat :=
  let filtered := db.filter (productFilters category_id min_price max_price search statusArg)
  let total_count := filtered.length
  let sorted := orderBy sort_by sort_order filtered
  ((sorted.drop skip).take limit, total_count)

/-- Handler of `GET /products/` (`routers/products.py`, `get_products`).
`page ≥ 1` and `1 ≤ per_page ≤ 100` are enforced by the framework's `Query`
validation; `status` arrives pattern-validated with default "available".
Line 99 of the router passes `status if status != "all" else "available"`
to the optimizer, and `seller_id` is accepted but never forwarded. -/
def get_products (page per_page : Nat) (category_id : Option String)
    (min_price max_price : Option ℚ) (statusQ : String) (search : Option String)
    (seller_id : Option String) (sort_by sort_order : String)
    (db : List Product) : ProductListResponse :=
  let _ := seller_id
  let skip := (page - 1) * per_page
  let statusArg := if statusQ == "all" then "available" else statusQ
  let pt := get_products_with_pagination skip per_page category_id min_price max_price
      search statusArg sort_by sort_order db
  let total_pages := (pt.2 + per_page - 1) / per_page
  { products := pt.1.map Product.toResponse, total := pt.2
    page := page, per_page := per_page, total_pages := total_pages }

/-! ## Cache Layer (`app/utils/cache.py`) -/

/-- Python values a cache slot can hold in the flows under verification:
`None`, a serialized product listing, or a coroutine object (the value
produced by calling an `async def` function without awaiting it; `callId`
distinguishes distinct coroutine objects). -/
inductive PyVal where
  | pynone
  | listResponse (r : ProductListResponse)
  | coroutine (callId : Nat)
deriving DecidableEq

/-- Entry of `InMemoryCache._cache` (value, expiry, bookkeeping fields). -/
structure CacheEntry where
  value : PyVal
  expires_at : Nat
  created_at : Nat
  last_accessed : Nat
  hits : Nat
  ttl : Nat
deriving DecidableEq

/-- The in-memory cache dictionary, keyed by string. -/
def Cache := List (String × CacheEntry)

/-- Dictionary lookup in the cache. -/
def cacheFind (c : Cache) (k : String) : Option CacheEntry :=
  (List.find? (fun kv => kv.1 == k) c).map (fun kv => kv.2)

/-- `InMemoryCache.set`: store `v` under `k` with expiry `now + ttl`
(dictionary assignment; a previous binding of `k` is replaced). -/
def cacheSet (now ttlv : Nat) (c : Cache) (k : String) (v : PyVal) : Cache :=
  (c.filter (fun kv => kv.1 != k)) ++
    [(k, { value := v, expires_at := now + ttlv, created_at := now
           last_accessed := now, hits := 0, ttl := ttlv })]

/-- Deletion of a key (`InMemoryCache.delete` / `dict.pop`). -/
def cacheDelete (c : Cache) (k : String) : Cache :=
  c.filter (fun kv => kv.1 != k)

/-- `InMemoryCache._is_expired`: `datetime.now() > expires_at`. -/
def isExpired (now : Nat) (e : CacheEntry) : Bool :=
  decide (e.expires_at < now)

/-- `InMemoryCache.get`: `None` on absent key; lazy eviction of an expired
entry; otherwise bump `hits`/`last_accessed` and return the value.  Returns
the read value together with the mutated cache. -/
def cacheGet (now : Nat) (c : Cache) (k : String) : Option PyVal × Cache :=
  match cacheFind c k with
  | none => (none, c)
  | some e =>
    if isExpired now e then (none, cacheDelete c k)
    else (some e.value,
      c.map (fun kv => if kv.1 == k then
        (kv.1, { kv.2 with hits := kv.2.hits + 1, last_accessed := now }) else kv))

/-- `invalidate_product_cache` (`cache.py` lines 266-275): with a product id
it deletes the two per-product keys; with `None` the `else` branch only logs
"Clearing all product caches" and performs no cache operation. -/
def invalidate_product_cache (product_id : Option String) (c : Cache) : Cache :=
  match product_id with
  | some pid => cacheDelete (cacheDelete c ("products:" ++ pid)) ("products:details:" ++ pid)
  | none => c

/-- The wrapper produced by `@cache_products(ttl=300)` = `cached("products",
300)` around the `async def get_products` handler.  The wrapper itself is a
plain synchronous function: on a hit it returns the cached value unchanged;
on a miss it calls the handler — which, being a coroutine function called
without `await`, yields a coroutine object — and, that object being
non-`None`, stores it under the generated key.  `argsKey` abstracts the
deterministic `_generate_key` serialization of the call's arguments and
`callId` identifies the coroutine object this particular call would create. -/
def cachedCall (ttlv : Nat) (argsKey : String) (callId now : Nat) (c : Cache) :
    PyVal × Cache :=
  match cacheGet now c ("products:" ++ argsKey) with
  | (some v, c2) => (v, c2)
  | (none, c2) =>
    (PyVal.coroutine callId, cacheSet now ttlv c2 ("products:" ++ argsKey) (PyVal.coroutine callId))

/-! ## Product mutation handlers (`routers/products.py`) -/

/-- Merge of `product_update.model_dump(exclude_unset=True)` onto a stored
row via `setattr`, followed by the ORM's `onupdate` bump of `updated_at` at
commit time. -/
def applyUpdate (u : ProductUpdate) (now : Nat) (p : Product) : Product :=
  { p with
    title := u.title.getD p.title
    description := match u.description with | some d => some d | none => p.description
    price := u.price.getD p.price
    image_url := match u.image_url with | some i => some i | none => p.image_url
    status := u.status.getD p.status
    category_id := u.category_id.getD p.category_id
    updated_at := now }

/-- Handler of `POST /products/` (`create_product`): verify the category,
insert the row (seller = current user, server-generated id `newId`,
timestamps `now`), then call `invalidate_product_cache()` with no argument.
Returns the result plus the updated products table and cache. -/
def create_product (data : ProductCreate) (current_user_id newId : String) (now : Nat)
    (categories : List CategoryRec) (db : List Product) (c : Cache) :
    HandlerResult ProductResponse × List Product × Cache :=
  match categories.find? (fun cat => cat.id == data.category_id) with
  | none => (.httpError 404 "Category not found", db, c)
  | some _ =>
    let p : Product :=
      { id := newId, title := data.title, description := data.description
        price := data.price, seller_id := current_user_id
        category_id := data.category_id, status := data.status
        image_url := data.image_url, images := none
        created_at := now, updated_at := now }
    (.ok p.toResponse, db ++ [p], invalidate_product_cache none c)

/-- Handler of `PUT /products/{id}` (`update_product`): 404 when the row is
absent, 403 when the requester is not the recorded seller, 404 when a new
category id does not exist (under Python truthiness), otherwise merge the
update, commit, and call `invalidate_product_cache(product.id)`. -/
def update_product (product_id : String) (upd : ProductUpdate) (current_user_id : String)
    (now : Nat) (categories : List CategoryRec) (db : List Product) (c : Cache) :
    HandlerResult ProductResponse × List Product × Cache :=
  match db.find? (fun p => p.id == product_id) with
  | none => (.httpError 404 "Product not found", db, c)
  | some p =>
    if p.seller_id != current_user_id then
      (.httpError 403 "You can only update your own products", db, c)
    else if truthyStr upd.category_id && (upd.category_id.getD "" != p.category_id)
        && (categories.find? (fun cat => cat.id == upd.category_id.getD "")).isNone then
      (.httpError 404 "Category not found", db, c)
    else
      let p' := applyUpdate upd now p
      (.ok p'.toResponse,
       db.map (fun q => if q.id == product_id then applyUpdate upd now q else q),
       invalidate_product_cache (some p'.id) c)

/-- Handler of `DELETE /products/{id}` (`delete_product`): 404 when absent,
403 when the requester is not the recorded seller, otherwise remove the row
and return the acknowledgment dict.  The handler performs no cache
invalidation, so the cache is returned untouched. -/
def delete_product (product_id current_user_id : String) (db : List Product) (c : Cache) :
    HandlerResult (String × String) × List Product × Cache :=
  match db.find? (fun p => p.id == product_id) with
  | none => (.httpError 404 "Product not found", db, c)
  | some p =>
    if p.seller_id != current_user_id then
      (.httpError 403 "You can only delete your own products", db, c)
    else
      (.ok ("Product deleted successfully", product_id),
       db.filter (fun q => q.id != product_id), c)

/-! ## The status-parameter shadowing handlers
(`routers/products.py` `get_seller_products`,
`routers/categories.py` `get_products_by_category`)

In both handlers the query parameter `status: Optional[str]` shadows the
module `status` imported from the web framework, so in the not-found branch
the expression `status.HTTP_404_NOT_FOUND` is an attribute access on a
string (or `None`), which raises `AttributeError` in Python. -/

/-- Outcome of a handler that may also escape with an uncaught Python
`AttributeError` (type name and attribute name). -/
inductive PyOutcome (α : Type) where
  | ok (val : α)
  | httpError (code : Nat) (detail : String)
  | attributeError (typeName attrName : String)
deriving DecidableEq

/-- The Python runtime type name of an `Optional[str]` value. -/
def pyTypeName : Option String → String
  | some _ => "str"
  | none => "NoneType"

/-- Attribute access `x.HTTP_404_NOT_FOUND` where `x` is the local
`Optional[str]` query parameter: always an `AttributeError`, since neither
`str` nor `NoneType` defines that attribute. -/
def statusParamAttr404 (statusLocal : Option String) : PyOutcome Nat :=
  .attributeError (pyTypeName statusLocal) "HTTP_404_NOT_FOUND"

/-- Python truthiness guard `if status and status != "all"` used by both
handlers below. -/
def statusFilterActive (statusQ : Option String) : Bool :=
  match statusQ with
  | none => false
  | some s => !(s == "") && !(s == "all")

/-- Handler of `GET /products/seller/{seller_id}` (`get_seller_products`).
When the seller does not exist the handler attempts to raise a 404 but
evaluating `status.HTTP_404_NOT_FOUND` on the shadowed query parameter
raises `AttributeError` first. -/
def get_seller_products (seller_id : String) (page per_page : Nat)
    (statusQ : Option String) (users : List UserRec) (db : List Product) :
    PyOutcome ProductListResponse :=
  match users.find? (fun u => u.id == seller_id) with
  | none =>
    (match statusParamAttr404 statusQ with
     | .ok code => .httpError code "Seller not found"
     | .httpError c d => .httpError c d
     | .attributeError t a => .attributeError t a)
  | some _ =>
    let q := db.filter (fun p => p.seller_id == seller_id)
    let q := if statusFilterActive statusQ then
        q.filter (fun p => p.status == statusQ.getD "") else q
    let total := q.length
    let total_pages := (total + per_page - 1) / per_page
    let offset := (page - 1) * per_page
    let items := ((orderBy "created_at" "desc" q).drop offset).take per_page
    .ok { products := items.map Product.toResponse, total := total
          page := page, per_page := per_page, total_pages := total_pages }

/-- Handler of `GET /categories/{category_id}/products`
(`get_products_by_category`): same shadowing bug in its category-not-found
branch; otherwise filters by category, status (truthiness + `!= "all"`) and
the inclusive price bounds, counts before paginating, and orders by
`created_at` descending. -/
def get_products_by_category (category_id : String) (page per_page : Nat)
    (statusQ : Option String) (min_price max_price : Option ℚ)
    (categories : List CategoryRec) (db : List Product) :
    PyOutcome ProductListResponse :=
  match categories.find? (fun cat => cat.id == category_id) with
  | none =>
    (match statusParamAttr404 statusQ with
     | .ok code => .httpError code "Category not found"
     | .httpError c d => .httpError c d
     | .attributeError t a => .attributeError t a)
  | some _ =>
    let q := db.filter (fun p => p.category_id == category_id)
    let q := if statusFilterActive statusQ then
        q.filter (fun p => p.status == statusQ.getD "") else q
    let q := match min_price with
      | some m => q.filter (fun p => decide (m ≤ p.price))
      | none => q
    let q := match max_price with
      | some m => q.filter (fun p => decide (p.price ≤ m))
      | none => q
    let total := q.length
    let total_pages := (total + per_page - 1) / per_page
    let offset := (page - 1) * per_page
    let items := ((orderBy "created_at" "desc" q).drop offset).take per_page
    .ok { products := items.map Product.toResponse, total := total
          page := page, per_page := per_page, total_pages := total_pages }

/-! ## Auth Flow (`routers/auth.py`) -/

/-- Lookup `get_user_by_username_or_email`: first row whose username OR
email equals the identifier (exact match), else a 404. -/
def get_user_by_username_or_email (users : List UserRec) (username : String) :
    HandlerResult UserRec :=
  match users.find? (fun u => u.username == username || u.email == username) with
  | some u => .ok u
  | none => .httpError 404 "User not found"

/-- `authenticate_user`: any lookup failure is caught and re-raised as a 401
with the generic message; a hash-verification failure raises the same 401.
`verify` abstracts the external `verify_password` primitive. -/
def authenticate_user (verify : String → String → Bool) (users : List UserRec)
    (username password : String) : HandlerResult UserRec :=
  match get_user_by_username_or_email users username with
  | .httpError _ _ => .httpError 401 "Incorrect username or password"
  | .ok u =>
    if verify password u.password_hash then .ok u
    else .httpError 401 "Incorrect username or password"

/-- Handler of `POST /auth/register` (`register_user`): hash the password
(`hashFn` abstracts the external salted one-way hash), insert the row, and
translate the store's `IntegrityError` — raised exactly when the UNIQUE
constraint on username or email is violated (exact, case-sensitive
comparison) — into a 400 with rollback.  The success value is the new row
serialized through `UserResponse`. -/
def register_user (hashFn : String → String) (data : UserCreate) (newId : String)
    (now : Nat) (users : List UserRec) : HandlerResult UserResponse × List UserRec :=
  let newUser : UserRec :=
    { id := newId, username := data.username, email := data.email
      password_hash := hashFn data.password, created_at := now, updated_at := now }
  if users.any (fun u => u.username == data.username || u.email == data.email) then
    (.httpError 400 "Username or email already registered", users)
  else
    (.ok newUser.toResponse, users ++ [newUser])

/-! ## Concrete store states used in counterexamples and witnesses -/

/-- Product whose title contains "Apple". -/
def prodTitleApple : Product :=
  { id := "p-title", title := "Apple iPhone", description := none, price := 1
    seller_id := "s1", category_id := "c1", status := "available"
    image_url := none, images := none, created_at := 2, updated_at := 2 }

/-- Product whose only occurrence of "Apple" is in the description. -/
def prodDescApple : Product :=
  { id := "p-desc", title := "Samsung Galaxy", description := some "Latest Apple phone"
    price := 1, seller_id := "s1", category_id := "c1", status := "available"
    image_url := none, images := none, created_at := 1, updated_at := 1 }

/-- Store for the free-text search counterexample. -/
def dbSearch : List Product := [prodTitleApple, prodDescApple]

/-- One available, one sold and one pending product. -/
def prodAvail : Product :=
  { id := "p-a", title := "A", description := none, price := 1, seller_id := "s1"
    category_id := "c1", status := "available", image_url := none, images := none
    created_at := 3, updated_at := 3 }

/-- Sold sibling of `prodAvail`. -/
def prodSold : Product :=
  { prodAvail with id := "p-s", title := "S", status := "sold", created_at := 2, updated_at := 2 }

/-- Pending sibling of `prodAvail`. -/
def prodPending : Product :=
  { prodAvail with id := "p-p", title := "P", status := "pending", created_at := 1, updated_at := 1 }

/-- Store with all three product statuses present. -/
def dbStatuses : List Product := [prodAvail, prodSold, prodPending]

/-- Product sold by seller `sellerA`. -/
def prodSellerA : Product :=
  { prodAvail with id := "pa", seller_id := "sellerA", created_at := 2, updated_at := 2 }

/-- Product sold by seller `sellerB`. -/
def prodSellerB : Product :=
  { prodAvail with id := "pb", seller_id := "sellerB", created_at := 1, updated_at := 1 }

/-- Store with products of two different sellers. -/
def dbSellers : List Product := [prodSellerA, prodSellerB]

/-- One of 25 identical available products, distinguished by timestamp. -/
def mkItem (i : Nat) : Product :=
  { id := "p", title := "Item", description := none, price := 1, seller_id := "s"
    category_id := "c", status := "available", image_url := none, images := none
    created_at := i, updated_at := i }

/-- Store of 25 matching products for the pagination scenario. -/
def db25 : List Product := (List.range 25).map mkItem

/-- An (empty) serialized listing, standing for a previously computed
product-query result. -/
def listingVal : ProductListResponse :=
  { products := [], total := 0, page := 1, per_page := 10, total_pages := 0 }

/-- Cache already holding a product-listing entry under the key the cached
listing endpoint would generate. -/
def staleCache : Cache :=
  cacheSet 0 300 [] "products:page=1:per_page=10" (PyVal.listResponse listingVal)

/-- The referenced category for product creation. -/
def catBooks : CategoryRec := { id := "c1", name := "Books" }

/-- A valid creation payload referencing `catBooks`. -/
def newProdData : ProductCreate :=
  { title := "Go Book", description := none, price := 1, image_url := none
    status := "available", category_id := "c1" }

/-- A product owned by user `owner1`. -/
def prodOwned : Product :=
  { id := "prod1", title := "Owned", description := none, price := 1
    seller_id := "owner1", category_id := "c1", status := "available"
    image_url := none, images := none, created_at := 1, updated_at := 1 }

/-- The external password hash primitive used in witnesses. -/
def hashW (p : String) : String := "hashed:" ++ p

/-- The matching verification primitive used in witnesses. -/
def verifyW (p h : String) : Bool := ("hashed:" ++ p) == h

/-- A registered user. -/
def aliceW : UserRec :=
  { id := "u1", username := "alice", email := "alice@x.com"
    password_hash := "hashed:Secret123", created_at := 0, updated_at := 0 }

/-- User table holding only `aliceW`. -/
def usersW : List UserRec := [aliceW]

/-- Registration payload whose username collides with `aliceW`. -/
def bobW : UserCreate := { username := "alice", email := "bob@x.com", password := "pw12345" }

/-- Registration payload colliding with nobody. -/
def carolW : UserCreate := { username := "carol", email := "carol@x.com", password := "pw999" }

/-! ## Helper lemmas -/

/-- Integer ceiling of a rational quotient of naturals equals the
`(a + b - 1) / b` formula used by the handlers. -/
lemma ceil_div_eq (a b : ℕ) (hb : 0 < b) :
    (((a + b - 1) / b : ℕ) : ℤ) = ⌈(a : ℚ) / (b : ℚ)⌉ := by
  have hb' : (0 : ℚ) < (b : ℚ) := by exact_mod_cast hb
  set q := (a + b - 1) / b with hqdef
  set r := (a + b - 1) % b with hrdef
  have hr : r < b := Nat.mod_lt _ hb
  have hkey : b * q + r = a + b - 1 := Nat.div_add_mod _ _
  set m := b * q with hm
  have hkeyZ : (m : ℤ) + (r : ℤ) = (a : ℤ) + (b : ℤ) - 1 := by omega
  have hbq : (b : ℤ) * (q : ℤ) = (m : ℤ) := by push_cast [hm]; ring
  symm
  rw [Int.ceil_eq_iff]
  constructor
  · rw [lt_div_iff₀ hb']
    have hz : ((q : ℤ) - 1) * (b : ℤ) < (a : ℤ) := by
      have e : ((q : ℤ) - 1) * (b : ℤ) = (b : ℤ) * (q : ℤ) - (b : ℤ) := by ring
      rw [e, hbq]
      omega
    exact_mod_cast hz
  · rw [div_le_iff₀ hb']
    have hz : (a : ℤ) ≤ (q : ℤ) * (b : ℤ) := by
      have e : (q : ℤ) * (b : ℤ) = (b : ℤ) * (q : ℤ) := by ring
      rw [e, hbq]
      omega
    exact_mod_cast hz

/-- No entry with key `k` survives filtering out key `k`. -/
lemma find?_filter_ne (c : Cache) (k : String) :
    List.find? (fun kv => kv.1 == k) (c.filter (fun kv => kv.1 != k)) = none := by
  induction c with
  | nil => rfl
  | cons kv rest ih =>
    rw [List.filter_cons]
    by_cases h : kv.1 == k
    · simp [bne, h, ih]
    · simp [bne, h, List.find?, ih]

/-- Looking up a key right after setting it yields the fresh entry. -/
lemma cacheFind_set (now ttlv : Nat) (c : Cache) (k : String) (v : PyVal) :
    cacheFind (cacheSet now ttlv c k v) k
      = some { value := v, expires_at := now + ttlv, created_at := now
               last_accessed := now, hits := 0, ttl := ttlv } := by
  unfold cacheFind cacheSet
  rw [List.find?_append, find?_filter_ne]
  simp [List.find?]

/-- Reading a present, unexpired entry returns its stored value and only
bumps the bookkeeping fields. -/
lemma cacheGet_fresh (now2 : Nat) (c2 : Cache) (k : String) (e : CacheEntry)
    (hfind : cacheFind c2 k = some e) (hexp : isExpired now2 e = false) :
    cacheGet now2 c2 k
      = (some e.value, c2.map (fun kv => if kv.1 == k then
          (kv.1, { kv.2 with hits := kv.2.hits + 1, last_accessed := now2 }) else kv)) := by
  unfold cacheGet
  simp only [hfind, hexp, Bool.false_eq_true, if_false]

/-! ## Claim theorems -/

/-- C1: the claim says a free-text search matches title OR description
case-insensitively.  In the code the filter is `Product.title.ilike` only:
on a store where one product carries "Apple" solely in its description,
searching "Apple" returns only the title-matching product even though the
other product's description contains the term case-insensitively. -/
theorem C1_search_ignores_description :
    (get_products 1 10 none none none "available" (some "Apple") none
        "created_at" "desc" dbSearch).total = 1
  ∧ ((get_products 1 10 none none none "available" (some "Apple") none
        "created_at" "desc" dbSearch).products.map (fun p => p.id)) = ["p-title"]
  ∧ ilikeContains "Latest Apple phone" "Apple" = true
  ∧ prodDescApple.description = some "Latest Apple phone" := by
  refine ⟨by decide, by decide, by decide, rfl⟩

/-- C2: the claim says `status=all` disables the status filter.  In the code
line 99 of the router replaces "all" by "available" before calling the
optimizer, so `status=all` behaves exactly like `status=available`: on a
store with one available, one sold and one pending product it returns a
single product, the available one. -/
theorem C2_status_all_collapses_to_available :
    (∀ page per_page category_id min_price max_price search seller_id sort_by sort_order db,
        get_products page per_page category_id min_price max_price "all" search seller_id
            sort_by sort_order db
          = get_products page per_page category_id min_price max_price "available" search
              seller_id sort_by sort_order db)
  ∧ (get_products 1 10 none none none "all" none none "created_at" "desc" dbStatuses).total = 1
  ∧ ((get_products 1 10 none none none "all" none none "created_at" "desc" dbStatuses).products.map
        (fun p => p.status)) = ["available"]
  ∧ prodSold.status = "sold" ∧ prodPending.status = "pending" := by
  exact ⟨fun _ _ _ _ _ _ _ _ _ _ => rfl, by decide, by decide, rfl, rfl⟩

/-- C4: the claim says a supplied `seller_id` restricts the result to that
seller.  The handler accepts the parameter but never forwards it to the
query, so the response is independent of `seller_id`; filtering for
`sellerA` still returns `sellerB`'s product and counts both. -/
theorem C4_seller_filter_ignored :
    (∀ page per_page category_id min_price max_price statusQ search s1 s2 sort_by sort_order db,
        get_products page per_page category_id min_price max_price statusQ search s1
            sort_by sort_order db
          = get_products page per_page category_id min_price max_price statusQ search s2
              sort_by sort_order db)
  ∧ ((get_products 1 10 none none none "available" none (some "sellerA")
        "created_at" "desc" dbSellers).products.map (fun p => p.seller_id))
      = ["sellerA", "sellerB"]
  ∧ (get_products 1 10 none none none "available" none (some "sellerA")
        "created_at" "desc" dbSellers).total = 2 := by
  exact ⟨fun _ _ _ _ _ _ _ _ _ _ _ _ => rfl, by decide, by decide⟩

/-- C8: the claim says every product write clears the whole product-cache
namespace.  In the code `invalidate_product_cache()` without an id — the
call made by `create_product` — only logs and leaves the cache untouched,
and `delete_product` performs no invalidation call at all, so a previously
cached listing survives a product creation verbatim. -/
theorem C8_invalidation_is_noop :
    (∀ c, invalidate_product_cache none c = c)
  ∧ (∀ product_id uid db c, (delete_product product_id uid db c).2.2 = c)
  ∧ (create_product newProdData "u1" "p9" 5 [catBooks] [] staleCache).2.2 = staleCache
  ∧ cacheFind staleCache "products:page=1:per_page=10"
      = some { value := PyVal.listResponse listingVal, expires_at := 300, created_at := 0
               last_accessed := 0, hits := 0, ttl := 300 } := by
  refine ⟨fun _ => rfl, ?_, by rfl, by rfl⟩
  intro product_id uid db c
  unfold delete_product
  cases h : db.find? (fun p => p.id == product_id) with
  | none => rfl
  | some p =>
    by_cases hs : (p.seller_id != uid) = true
    · simp only [hs, if_true]
    · simp only [Bool.not_eq_true] at hs
      simp only [hs, Bool.false_eq_true, if_false]

/-- C3: for every product search with `page ≥ 1` and `per_page` in
`[1,100]`, the reported total is the size of the filtered set before
pagination, `total_pages` is the exact rational ceiling of
`total / per_page`, the returned items are the window of the sorted
filtered set starting at offset `(page-1)*per_page`, and on 25 matching
products `page=3, per_page=10` yields exactly 5 items, total 25 and 3
pages. -/
theorem C3_pagination (page per_page : Nat) (category_id : Option String)
    (min_price max_price : Option ℚ) (statusQ : String) (search seller_id : Option String)
    (sort_by sort_order : String) (db : List Product)
    (hpage : 1 ≤ page) (hpp : 1 ≤ per_page) (hppmax : per_page ≤ 100) :
    (get_products page per_page category_id min_price max_price statusQ search seller_id
        sort_by sort_order db).total
      = (db.filter (productFilters category_id min_price max_price search
          (if statusQ == "all" then "available" else statusQ))).length
  ∧ (((get_products page per_page category_id min_price max_price statusQ search seller_id
        sort_by sort_order db).total_pages : ℤ)
      = ⌈((get_products page per_page category_id min_price max_price statusQ search seller_id
            sort_by sort_order db).total : ℚ) / (per_page : ℚ)⌉)
  ∧ (get_products page per_page category_id min_price max_price statusQ search seller_id
        sort_by sort_order db).products
      = (((orderBy sort_by sort_order (db.filter (productFilters category_id min_price
            max_price search (if statusQ == "all" then "available" else statusQ)))).drop
          ((page - 1) * per_page)).take per_page).map Product.toResponse
  ∧ ((get_products 3 10 none none none "available" none none "created_at" "desc" db25).products.length = 5
      ∧ (get_products 3 10 none none none "available" none none "created_at" "desc" db25).total = 25
      ∧ (get_products 3 10 none none none "available" none none "created_at" "desc" db25).total_pages = 3) := by
  refine ⟨rfl, ?_, rfl, by decide, by decide, by decide⟩
  exact (ceil_div_eq _ per_page hpp).symm ▸ rfl

/-- C5: both authentication failure modes — unknown identifier and failed
hash verification — produce the same `401 Unauthorized` with the identical
generic detail "Incorrect username or password", revealing nothing about
user existence. -/
theorem C5_login_failures_identical (verify : String → String → Bool)
    (users : List UserRec) (username password : String) :
    (users.find? (fun u => u.username == username || u.email == username) = none →
        authenticate_user verify users username password
          = .httpError 401 "Incorrect username or password")
  ∧ (∀ u, users.find? (fun u => u.username == username || u.email == username) = some u →
        verify password u.password_hash = false →
        authenticate_user verify users username password
          = .httpError 401 "Incorrect username or password") := by
  constructor
  · intro h
    unfold authenticate_user get_user_by_username_or_email
    rw [h]
  · intro u h hv
    unfold authenticate_user get_user_by_username_or_email
    rw [h]
    simp [hv]

/-- Witness for C5 at a concrete store: an unknown identifier and a wrong
password for the registered user yield the same generic 401. -/
theorem C5_login_failures_identical_witness :
    authenticate_user verifyW usersW "ghost" "pw"
      = .httpError 401 "Incorrect username or password"
  ∧ authenticate_user verifyW usersW "alice" "wrong"
      = .httpError 401 "Incorrect username or password" :=
  ⟨(C5_login_failures_identical verifyW usersW "ghost" "pw").1 (by decide),
   (C5_login_failures_identical verifyW usersW "alice" "wrong").2 aliceW (by decide) (by decide)⟩

/-- C6: a PUT or DELETE on an existing product by any user other than the
recorded seller yields 403 and leaves the store (and cache) unchanged, and
conversely each of the two handlers succeeds only when the requester is the
recorded seller. -/
theorem C6_owner_only_mutation (product_id : String) (upd : ProductUpdate) (uid : String)
    (now : Nat) (categories : List CategoryRec) (db : List Product) (c : Cache) :
    (∀ p, db.find? (fun q => q.id == product_id) = some p → p.seller_id ≠ uid →
        update_product product_id upd uid now categories db c
            = (.httpError 403 "You can only update your own products", db, c)
      ∧ delete_product product_id uid db c
            = (.httpError 403 "You can only delete your own products", db, c))
  ∧ (∀ r st, update_product product_id upd uid now categories db c = (.ok r, st) →
        ∃ p, db.find? (fun q => q.id == product_id) = some p ∧ p.seller_id = uid)
  ∧ (∀ r st, delete_product product_id uid db c = (.ok r, st) →
        ∃ p, db.find? (fun q => q.id == product_id) = some p ∧ p.seller_id = uid) := by
  refine ⟨?_, ?_, ?_⟩
  · intro p hfind hne
    have hb : (p.seller_id != uid) = true := by simp [bne, hne]
    constructor
    · unfold update_product
      rw [hfind]
      simp only [hb, if_true]
    · unfold delete_product
      rw [hfind]
      simp only [hb, if_true]
  · intro r st h
    unfold update_product at h
    cases hfind : db.find? (fun q => q.id == product_id) with
    | none => rw [hfind] at h; exact absurd h (by simp)
    | some p =>
      refine ⟨p, rfl, ?_⟩
      by_cases hs : p.seller_id = uid
      · exact hs
      · exfalso
        have hb : (p.seller_id != uid) = true := by simp [bne, hs]
        rw [hfind] at h
        simp only [hb, if_true] at h
        exact absurd h (by simp)
  · intro r st h
    unfold delete_product at h
    cases hfind : db.find? (fun q => q.id == product_id) with
    | none => rw [hfind] at h; exact absurd h (by simp)
    | some p =>
      refine ⟨p, rfl, ?_⟩
      by_cases hs : p.seller_id = uid
      · exact hs
      · exfalso
        have hb : (p.seller_id != uid) = true := by simp [bne, hs]
        rw [hfind] at h
        simp only [hb, if_true] at h
        exact absurd h (by simp)

/-- Witness for C6: the user `intruder` can neither update nor delete the
product recorded for `owner1`; both requests return 403 and leave the store
untouched. -/
theorem C6_owner_only_mutation_witness :
    update_product "prod1" {} "intruder" 9 [] [prodOwned] []
        = (.httpError 403 "You can only update your own products", [prodOwned], ([] : Cache))
  ∧ delete_product "prod1" "intruder" [prodOwned] []
        = (.httpError 403 "You can only delete your own products", [prodOwned], ([] : Cache)) :=
  (C6_owner_only_mutation "prod1" {} "intruder" 9 [] [prodOwned] []).1 prodOwned
    (by decide) (by decide)

/-- C7: registration is rejected with 400 and an unchanged store whenever
an existing row already holds the requested username or email (exact
case-sensitive match), the successful response is the `UserResponse`
projection carrying no password material, and the response is entirely
independent of the submitted password. -/
theorem C7_register_conflict_and_no_password (hashFn : String → String) (data : UserCreate)
    (newId : String) (now : Nat) (users : List UserRec) :
    (users.any (fun u => u.username == data.username || u.email == data.email) = true →
        register_user hashFn data newId now users
          = (.httpError 400 "Username or email already registered", users))
  ∧ (∀ p1 p2, (register_user hashFn { data with password := p1 } newId now users).1
        = (register_user hashFn { data with password := p2 } newId now users).1)
  ∧ (users.any (fun u => u.username == data.username || u.email == data.email) = false →
        register_user hashFn data newId now users
          = (.ok { id := newId, username := data.username, email := data.email
                   created_at := now, updated_at := now },
             users ++ [{ id := newId, username := data.username, email := data.email
                         password_hash := hashFn data.password
                         created_at := now, updated_at := now }])) := by
  refine ⟨?_, ?_, ?_⟩
  · intro h
    unfold register_user
    rw [h]
    rfl
  · intro p1 p2
    unfold register_user
    by_cases h : users.any (fun u => u.username == data.username || u.email == data.email)
    · simp only [h, if_true]
    · simp only [Bool.not_eq_true] at h
      simp only [h, Bool.false_eq_true, if_false]
      rfl
  · intro h
    unfold register_user
    rw [h]
    rfl

/-- Witness for C7: registering a second "alice" is rejected with the 400
conflict and no store change, while registering fresh "carol" succeeds with
a password-free response. -/
theorem C7_register_conflict_and_no_password_witness :
    register_user hashW bobW "u2" 7 usersW
        = (.httpError 400 "Username or email already registered", usersW)
  ∧ register_user hashW carolW "u3" 8 usersW
        = (.ok { id := "u3", username := "carol", email := "carol@x.com"
                 created_at := 8, updated_at := 8 },
           usersW ++ [{ id := "u3", username := "carol", email := "carol@x.com"
                        password_hash := hashW "pw999", created_at := 8, updated_at := 8 }]) :=
  ⟨(C7_register_conflict_and_no_password hashW bobW "u2" 7 usersW).1 (by decide),
   (C7_register_conflict_and_no_password hashW carolW "u3" 8 usersW).2.2 (by decide)⟩

/-- C9: the synchronous cache wrapper around the async listing handler
returns, on a miss, the un-awaited coroutine object and stores it; a second
call with identical arguments while the entry is fresh returns that very
stored coroutine object — not a recomputation and not a serialized
listing. -/
theorem C9_cached_stores_coroutine (argsKey : String) (c : Cache) (n1 n2 t1 t2 : Nat)
    (hmiss : cacheFind c ("products:" ++ argsKey) = none)
    (hfresh : t2 ≤ t1 + 300) :
    (cachedCall 300 argsKey n1 t1 c).1 = PyVal.coroutine n1
  ∧ (cachedCall 300 argsKey n2 t2 (cachedCall 300 argsKey n1 t1 c).2).1 = PyVal.coroutine n1
  ∧ ∀ r, (cachedCall 300 argsKey n2 t2 (cachedCall 300 argsKey n1 t1 c).2).1
        ≠ PyVal.listResponse r := by
  have h1 : cachedCall 300 argsKey n1 t1 c
      = (PyVal.coroutine n1,
         cacheSet t1 300 c ("products:" ++ argsKey) (PyVal.coroutine n1)) := by
    unfold cachedCall cacheGet
    rw [hmiss]
  have h2 : (cachedCall 300 argsKey n2 t2 (cachedCall 300 argsKey n1 t1 c).2).1
      = PyVal.coroutine n1 := by
    rw [h1]
    have hm := cacheGet_fresh t2
      (cacheSet t1 300 c ("products:" ++ argsKey) (PyVal.coroutine n1))
      ("products:" ++ argsKey)
      { value := PyVal.coroutine n1, expires_at := t1 + 300, created_at := t1
        last_accessed := t1, hits := 0, ttl := 300 }
      (cacheFind_set t1 300 c ("products:" ++ argsKey) (PyVal.coroutine n1))
      (by simp [isExpired, Nat.not_lt.mpr hfresh])
    unfold cachedCall
    rw [hm]
  refine ⟨by rw [h1], h2, ?_⟩
  intro r hr
  rw [h2] at hr
  exact absurd hr (by simp)

/-- Witness for C9: starting from an empty cache, the first call yields
coroutine 0 and a second call 100 seconds later yields the same stored
coroutine 0 rather than the fresh coroutine 1. -/
theorem C9_cached_stores_coroutine_witness :
    (cachedCall 300 "page=1" 0 0 []).1 = PyVal.coroutine 0
  ∧ (cachedCall 300 "page=1" 1 100 (cachedCall 300 "page=1" 0 0 []).2).1
      = PyVal.coroutine 0 :=
  ⟨(C9_cached_stores_coroutine "page=1" [] 0 1 0 100 (by rfl) (by decide)).1,
   (C9_cached_stores_coroutine "page=1" [] 0 1 0 100 (by rfl) (by decide)).2.1⟩

/-- C10: in `GET /products/seller/{seller_id}` and
`GET /categories/{category_id}/products` the string-typed `status` query
parameter shadows the imported HTTP status module, so whenever the
referenced seller or category is absent the handler raises
`AttributeError` (on `str` or `NoneType`) instead of returning a 404. -/
theorem C10_status_shadowing (seller_id category_id : String) (page per_page : Nat)
    (statusQ : Option String) (min_price max_price : Option ℚ)
    (users : List UserRec) (categories : List CategoryRec) (db : List Product) :
    (users.find? (fun u => u.id == seller_id) = none →
        get_seller_products seller_id page per_page statusQ users db
          = .attributeError (pyTypeName statusQ) "HTTP_404_NOT_FOUND")
  ∧ (categories.find? (fun cat => cat.id == category_id) = none →
        get_products_by_category category_id page per_page statusQ min_price max_price
            categories db
          = .attributeError (pyTypeName statusQ) "HTTP_404_NOT_FOUND") := by
  constructor
  · intro h
    unfold get_seller_products
    rw [h]
    rfl
  · intro h
    unfold get_products_by_category
    rw [h]
    rfl

/-- Witness for C10: with empty user and category tables and the default
`status="available"`, both handlers raise `AttributeError` on `str`. -/
theorem C10_status_shadowing_witness :
    get_seller_products "nobody" 1 10 (some "available") [] []
        = .attributeError "str" "HTTP_404_NOT_FOUND"
  ∧ get_products_by_category "nocat" 1 10 (some "available") none none [] []
        = .attributeError "str" "HTTP_404_NOT_FOUND" :=
  ⟨(C10_status_shadowing "nobody" "nocat" 1 10 (some "available") none none [] [] []).1 (by rfl),
   (C10_status_shadowing "nobody" "nocat" 1 10 (some "available") none none [] [] []).2 (by rfl)⟩

/-- Witness for C3 at the concrete scenario store: page 3 of 25 products at
10 per page reports the filtered-set size as its total. -/
theorem C3_pagination_witness :
    1 ≤ (3 : Nat)
  ∧ (get_products 3 10 none none none "available" none none "created_at" "desc" db25).total
      = (db25.filter (productFilters none none none none "available")).length :=
  ⟨by decide,
   (C3_pagination 3 10 none none none "available" none none "created_at" "desc" db25
      (by decide) (by decide) (by decide)).1⟩

end Marketplace
